import Mathlib

/-!
Shallow embedding of the `packages/api` backend of the epic-charts repository
(FastAPI + SQLAlchemy chart-sharing service), covering the token service
(`dependencies.py`), identity resolution (`get_current_user` /
`get_optional_user`), redirect-target validation (`_safe_frontend_target`) and
the chart / save / like resource endpoints of `main.py`.

The relational store is modelled as lists of rows; each endpoint is a pure
function from the request arguments and the database state to
`Except HTTPError result`, where raising `HTTPException` before `db.commit()`
corresponds to returning `.error` and leaving the state unchanged.
-/

namespace EpicCharts

/-! ## Generic list helpers

`updateFirst` models mutating the row returned by SQLAlchemy's
`query(...).first()` and committing; `eraseFirst` models `db.delete(row)`
for the row returned by `.first()`. -/

/-- Apply `f` to the first element satisfying `p`, leave the rest unchanged. -/
def updateFirst (p : α → Bool) (f : α → α) : List α → List α
  | [] => []
  | x :: xs => if p x then f x :: xs else x :: updateFirst p f xs

/-- Remove the first element satisfying `p`. -/
def eraseFirst (p : α → Bool) : List α → List α
  | [] => []
  | x :: xs => if p x then xs else x :: eraseFirst p xs

theorem updateFirst_nil (p : α → Bool) (f : α → α) : updateFirst p f [] = [] := rfl

theorem updateFirst_cons (p : α → Bool) (f : α → α) (x : α) (xs : List α) :
    updateFirst p f (x :: xs) = if p x then f x :: xs else x :: updateFirst p f xs := rfl

theorem eraseFirst_cons (p : α → Bool) (x : α) (xs : List α) :
    eraseFirst p (x :: xs) = if p x then xs else x :: eraseFirst p xs := rfl

/-- Decompose a successful `find?` into a prefix of non-matches, the found
element, and a suffix. -/
theorem find?_decomp {p : α → Bool} {l : List α} {a : α} (h : l.find? p = some a) :
    ∃ l1 l2, l = l1 ++ a :: l2 ∧ (∀ x ∈ l1, p x = false) ∧ p a = true := by
  induction l with
  | nil => simp [List.find?] at h
  | cons b t ih =>
    by_cases hb : p b
    · rw [List.find?_cons_of_pos _ hb] at h
      exact ⟨[], t, by simp [← Option.some_inj.mp h, hb]⟩
    · rw [List.find?_cons_of_neg _ hb] at h
      obtain ⟨l1, l2, heq, hall, hpa⟩ := ih h
      exact ⟨b :: l1, l2, by simp [heq], by
        intro x hx
        rcases List.mem_cons.mp hx with hx | hx
        · simpa [hx] using hb
        · exact hall x hx, hpa⟩

theorem find?_append_of_none {p : α → Bool} {l1 : List α} (l2 : List α)
    (h : l1.find? p = none) : (l1 ++ l2).find? p = l2.find? p := by
  induction l1 with
  | nil => simp
  | cons b t ih =>
    by_cases hb : p b
    · rw [List.find?_cons_of_pos _ hb] at h; exact absurd h (by simp)
    · rw [List.find?_cons_of_neg _ hb] at h
      simpa [List.find?_cons_of_neg _ hb] using ih h

theorem find?_prefix_none {p : α → Bool} {l1 : List α}
    (h : ∀ x ∈ l1, p x = false) : l1.find? p = none := by
  induction l1 with
  | nil => rfl
  | cons b t ih =>
    rw [List.find?_cons_of_neg _ (by simp [h b (by simp)])]
    exact ih fun x hx => h x (List.mem_cons_of_mem _ hx)

theorem find?_append_cons {p : α → Bool} {l1 l2 : List α} {a : α}
    (h1 : ∀ x ∈ l1, p x = false) (ha : p a = true) :
    (l1 ++ a :: l2).find? p = some a := by
  rw [find?_append_of_none _ (find?_prefix_none h1), List.find?_cons_of_pos _ ha]

theorem updateFirst_append_cons {p : α → Bool} {f : α → α} {l1 l2 : List α} {a : α}
    (h1 : ∀ x ∈ l1, p x = false) (ha : p a = true) :
    updateFirst p f (l1 ++ a :: l2) = l1 ++ f a :: l2 := by
  induction l1 with
  | nil => simp [updateFirst, ha]
  | cons b t ih =>
    have hb : p b = false := h1 b (by simp)
    simp only [List.cons_append, updateFirst, hb, Bool.false_eq_true, if_false, List.cons.injEq,
      true_and]
    exact ih fun x hx => h1 x (List.mem_cons_of_mem _ hx)

theorem updateFirst_of_none {p : α → Bool} {f : α → α} {l : List α}
    (h : ∀ x ∈ l, p x = false) : updateFirst p f l = l := by
  induction l with
  | nil => rfl
  | cons b t ih =>
    simp only [updateFirst, h b (by simp), Bool.false_eq_true, if_false, List.cons.injEq, true_and]
    exact ih fun x hx => h x (List.mem_cons_of_mem _ hx)

theorem eraseFirst_append_cons {p : α → Bool} {l1 l2 : List α} {a : α}
    (h1 : ∀ x ∈ l1, p x = false) (ha : p a = true) :
    eraseFirst p (l1 ++ a :: l2) = l1 ++ l2 := by
  induction l1 with
  | nil => simp [eraseFirst, ha]
  | cons b t ih =>
    have hb : p b = false := h1 b (by simp)
    simp only [List.cons_append, eraseFirst, hb, Bool.false_eq_true, if_false, List.cons.injEq,
      true_and]
    exact ih fun x hx => h1 x (List.mem_cons_of_mem _ hx)

/-- `updateFirst` leaves the image under `g` unchanged when `f` commutes with nothing
visible to `g`. -/
theorem map_updateFirst {p : α → Bool} {f : α → α} {g : α → β} (l : List α)
    (hf : ∀ a, g (f a) = g a) : (updateFirst p f l).map g = l.map g := by
  induction l with
  | nil => rfl
  | cons b t ih =>
    by_cases hb : p b
    · simp [updateFirst, hb, hf]
    · simp [updateFirst, hb, ih]

/-! ## Data model (`models/database.py`)

Rows of the four tables. Timestamps are seconds since the epoch; the opaque
JSON payloads (`data`, `config`) are kept as strings; `is_public`,
`view_count` and `like_count` are the integer columns of the `charts` table
(`is_public`: 0 = private, 1 = public). -/

/-- Row of the `users` table. -/
structure User where
  id : String
  email : String
  name : Option String
  picture : Option String
  google_id : String
  created_at : Nat
  last_login : Nat
deriving DecidableEq, Repr

/-- Row of the `charts` table. -/
structure Chart where
  id : String
  user_id : String
  title : Option String
  description : Option String
  data : String
  config : String
  source_type : Option String
  source_url : Option String
  is_public : Int
  view_count : Int
  like_count : Int
  created_at : Nat
  updated_at : Nat
deriving DecidableEq, Repr

/-- Row of the `saved_charts` table. -/
structure SavedChart where
  id : String
  user_id : String
  chart_id : String
  created_at : Nat
deriving DecidableEq, Repr

/-- Row of the `likes` table. -/
structure Like where
  id : String
  user_id : String
  chart_id : String
  created_at : Nat
deriving DecidableEq, Repr

/-- The relational store: one list of rows per table. -/
structure DBState where
  users : List User
  charts : List Chart
  saved_charts : List SavedChart
  likes : List Like
deriving DecidableEq, Repr

/-- `HTTPException(status_code=..., detail=...)`. -/
structure HTTPError where
  status_code : Nat
  detail : String
deriving DecidableEq, Repr

/-! ## Token service (`dependencies.py`)

A JWT is modelled shallowly as its claims plus the secret it was signed
with; `wellFormed = false` stands for a token whose payload or signature is
corrupted (PyJWT raises `InvalidTokenError` on it regardless of secret). -/

/-- The claims dict of a decoded token: `{"sub": ..., "exp": ..., "iat": ...}`. -/
structure JwtPayload where
  sub : String
  exp : Nat
  iat : Nat
deriving DecidableEq, Repr

/-- A signed token: claims, the signing secret, and whether the encoded
string is structurally intact. -/
structure Jwt where
  payload : JwtPayload
  secret : String
  wellFormed : Bool
deriving DecidableEq, Repr

/-- `JWT_EXPIRATION_DAYS = 7`, in seconds. -/
def JWT_EXPIRATION_SECONDS : Nat := 7 * 24 * 60 * 60

/-- `create_access_token(user_id)`: payload
`{"sub": user_id, "exp": now + 7 days, "iat": now}` signed with the
process secret. -/
def create_access_token (user_id : String) (secret : String) (now : Nat) : Jwt :=
  { payload := { sub := user_id, exp := now + JWT_EXPIRATION_SECONDS, iat := now }
    secret := secret
    wellFormed := true }

/-- The two `logger.warning` lines of `decode_token`, which distinguish the
two failure branches (`jwt.ExpiredSignatureError` vs `jwt.InvalidTokenError`). -/
inductive AuthLog where
  | noLog
  | tokenExpired
  | tokenInvalid
deriving DecidableEq, Repr

/-- `decode_token(token)`: returns the payload, or `none` together with the
log line of the branch taken. PyJWT verifies the signature first (failure =
`InvalidTokenError`), then the `exp` claim (failure = `ExpiredSignatureError`). -/
def decode_token (token : Jwt) (secret : String) (now : Nat) :
    Option JwtPayload × AuthLog :=
  if !token.wellFormed || token.secret != secret then
    (none, AuthLog.tokenInvalid)
  else if token.payload.exp ≤ now then
    (none, AuthLog.tokenExpired)
  else
    (some token.payload, AuthLog.noLog)

/-! ## Identity resolution (`dependencies.py`)

The `auth_token` cookie and the `Authorization: Bearer` header each carry a
token string; `TokenStr.empty` is the empty string (falsy in Python), and any
non-empty string parses as a `Jwt` (possibly with `wellFormed = false`). -/

/-- A token string as carried by a cookie or a bearer header. -/
inductive TokenStr where
  | empty
  | jwt (t : Jwt)
deriving DecidableEq, Repr

/-- Python truthiness of an `Optional[str]` token: `None` and `""` are falsy. -/
def TokenStr.truthy : Option TokenStr → Bool
  | none => false
  | some .empty => false
  | some (.jwt _) => true

/-- The credential-selection prelude of `get_current_user`:
`if auth_token: token = auth_token elif credentials: token = credentials.credentials`. -/
def pick_token (auth_token : Option TokenStr) (credentials : Option TokenStr) :
    Option TokenStr :=
  if TokenStr.truthy auth_token then auth_token
  else if credentials.isSome then credentials
  else none

/-- `get_current_user(request, credentials, auth_token, db)`: select the
credential (cookie first), decode it, read `sub`, and load the user row;
any failure is a 401. -/
def get_current_user (auth_token : Option TokenStr) (credentials : Option TokenStr)
    (db : DBState) (secret : String) (now : Nat) : Except HTTPError User :=
  match pick_token auth_token credentials with
  | none => .error ⟨401, "Not authenticated"⟩
  | some .empty => .error ⟨401, "Not authenticated"⟩
  | some (.jwt tok) =>
    match (decode_token tok secret now).1 with
    | none => .error ⟨401, "Invalid or expired token"⟩
    | some payload =>
      if payload.sub = "" then .error ⟨401, "Invalid token payload"⟩
      else
        match db.users.find? (fun u => u.id == payload.sub) with
        | none => .error ⟨401, "User not found"⟩
        | some user => .ok user

/-- `get_optional_user`: same resolution, but every `HTTPException` becomes
`None`. -/
def get_optional_user (auth_token : Option TokenStr) (credentials : Option TokenStr)
    (db : DBState) (secret : String) (now : Nat) : Option User :=
  match get_current_user auth_token credentials db secret now with
  | .ok u => some u
  | .error _ => none

/-! ## Redirect-target validation (`main.py`, `_safe_frontend_target`) -/

/-- Python `s.startswith(pre)`: codepoint-level prefix test. -/
def pyStartsWith (s pre : String) : Bool :=
  pre.data.isPrefixOf s.data

/-- Python `s.strip()`: drop leading and trailing whitespace. -/
def pyStrip (s : String) : String :=
  ⟨((s.data.dropWhile Char.isWhitespace).reverse.dropWhile Char.isWhitespace).reverse⟩

/-- Process-wide configuration read from the environment in `main.py`. -/
structure Config where
  FRONTEND_URL : String
  ALLOWED_FRONTEND_DOMAINS : List String
  IS_PRODUCTION : Bool
deriving Repr

/-- The `allowed` list built inside `_safe_frontend_target`:
`[FRONTEND_URL] + [d.strip() for d in ALLOWED_FRONTEND_DOMAINS if d.strip()]`. -/
def allowedDomains (cfg : Config) : List String :=
  cfg.FRONTEND_URL :: (cfg.ALLOWED_FRONTEND_DOMAINS.map pyStrip).filter (fun d => d != "")

/-- The localhost test of `_safe_frontend_target`:
`target.startswith("http://localhost:") or target.startswith("http://127.0.0.1:")`. -/
def isLocalhostTarget (t : String) : Bool :=
  pyStartsWith t "http://localhost:" || pyStartsWith t "http://127.0.0.1:"

/-- The `for domain in allowed: if target.startswith(domain)` loop. -/
def matchesAllowed (cfg : Config) (t : String) : Bool :=
  (allowedDomains cfg).any (fun d => pyStartsWith t d)

/-- `_safe_frontend_target(target)`: falls back to `FRONTEND_URL` for a falsy
target, accepts localhost-style targets outside production, accepts targets
starting with an allowed domain, and otherwise logs and returns
`FRONTEND_URL`. -/
def safe_frontend_target (cfg : Config) (target : Option String) : String :=
  match target with
  | none => cfg.FRONTEND_URL
  | some t =>
    if t = "" then cfg.FRONTEND_URL
    else if !cfg.IS_PRODUCTION && isLocalhostTarget t then t
    else if matchesAllowed cfg t then t
    else cfg.FRONTEND_URL

/-! ## Chart endpoints (`main.py`)

`db.query(T).filter(...).first()` is `List.find?`; a raised `HTTPException`
is `.error` (the transaction is never committed, so the state is unchanged);
a successful handler returns its response value together with the committed
state. `generate_uuid()` and `datetime.utcnow()` are threaded in as the
`newId` / `now` arguments. -/

/-- Row predicate `Chart.id == chart_id`. -/
def chartById (chart_id : String) (c : Chart) : Bool := c.id == chart_id

/-- Row predicate `SavedChart.user_id == uid, SavedChart.chart_id == chart_id`. -/
def savedByUserChart (uid chart_id : String) (s : SavedChart) : Bool :=
  s.user_id == uid && s.chart_id == chart_id

/-- Row predicate `Like.user_id == uid, Like.chart_id == chart_id`. -/
def likeByUserChart (uid chart_id : String) (l : Like) : Bool :=
  l.user_id == uid && l.chart_id == chart_id

/-- `GET /api/charts/{chart_id}` (`get_chart`): 404 if absent, 403 if the
chart is private and the optional caller is not its owner, else increment
`view_count` and commit. Returns the committed chart row and the new state
(response shaping via `_chart_to_response` is omitted). -/
def get_chart (chart_id : String) (current_user : Option User) (db : DBState) :
    Except HTTPError (Chart × DBState) :=
  match db.charts.find? (chartById chart_id) with
  | none => .error ⟨404, "Chart not found"⟩
  | some chart =>
    if chart.is_public == 0 &&
        (match current_user with
         | none => true
         | some u => chart.user_id != u.id) then
      .error ⟨403, "Access denied"⟩
    else
      let chart' := { chart with view_count := chart.view_count + 1 }
      .ok (chart', { db with
        charts := updateFirst (chartById chart_id)
          (fun c => { c with view_count := c.view_count + 1 }) db.charts })

/-- `POST /api/charts/{chart_id}/save` (`save_chart`): 404 if the chart is
absent, 400 `"Chart already saved"` on a duplicate, else insert the join
row. -/
def save_chart (chart_id : String) (current_user : User) (newId : String)
    (now : Nat) (db : DBState) : Except HTTPError (SavedChart × DBState) :=
  match db.charts.find? (chartById chart_id) with
  | none => .error ⟨404, "Chart not found"⟩
  | some _chart =>
    match db.saved_charts.find? (savedByUserChart current_user.id chart_id) with
    | some _ => .error ⟨400, "Chart already saved"⟩
    | none =>
      let saved : SavedChart :=
        { id := newId, user_id := current_user.id, chart_id := chart_id, created_at := now }
      .ok (saved, { db with saved_charts := db.saved_charts ++ [saved] })

/-- `DELETE /api/charts/{chart_id}/save` (`unsave_chart`): 404
`"Saved chart not found"` if the join row is absent, else delete it. -/
def unsave_chart (chart_id : String) (current_user : User) (db : DBState) :
    Except HTTPError DBState :=
  match db.saved_charts.find? (savedByUserChart current_user.id chart_id) with
  | none => .error ⟨404, "Saved chart not found"⟩
  | some _saved =>
    .ok { db with
      saved_charts := eraseFirst (savedByUserChart current_user.id chart_id) db.saved_charts }

/-- `POST /api/charts/{chart_id}/like` (`like_chart`): 404 if the chart is
absent, 400 `"Chart already liked"` on a duplicate, else insert the Like row
and increment the chart's `like_count` in the same commit. -/
def like_chart (chart_id : String) (current_user : User) (newId : String)
    (now : Nat) (db : DBState) : Except HTTPError (Like × DBState) :=
  match db.charts.find? (chartById chart_id) with
  | none => .error ⟨404, "Chart not found"⟩
  | some _chart =>
    match db.likes.find? (likeByUserChart current_user.id chart_id) with
    | some _ => .error ⟨400, "Chart already liked"⟩
    | none =>
      let like : Like :=
        { id := newId, user_id := current_user.id, chart_id := chart_id, created_at := now }
      .ok (like, { db with
        likes := db.likes ++ [like]
        charts := updateFirst (chartById chart_id)
          (fun c => { c with like_count := c.like_count + 1 }) db.charts })

/-- `DELETE /api/charts/{chart_id}/like` (`unlike_chart`): 404
`"Like not found"` if the Like row is absent; else re-query the chart, and
`if chart and chart.like_count > 0: chart.like_count -= 1`, then delete the
Like row, in one commit. -/
def unlike_chart (chart_id : String) (current_user : User) (db : DBState) :
    Except HTTPError DBState :=
  match db.likes.find? (likeByUserChart current_user.id chart_id) with
  | none => .error ⟨404, "Like not found"⟩
  | some _like =>
    .ok { db with
      charts := updateFirst (chartById chart_id)
        (fun c => if 0 < c.like_count then { c with like_count := c.like_count - 1 } else c)
        db.charts
      likes := eraseFirst (likeByUserChart current_user.id chart_id) db.likes }

/-! ## Concrete fixtures used by the witness theorems -/

/-- Test user `u1`, owner of the fixture charts. -/
def wU1 : User :=
  { id := "u1", email := "u1@example.com", name := none, picture := none
    google_id := "g1", created_at := 0, last_login := 0 }

/-- Test user `u2`, not an owner of any fixture chart. -/
def wU2 : User :=
  { id := "u2", email := "u2@example.com", name := none, picture := none
    google_id := "g2", created_at := 0, last_login := 0 }

/-- A private fixture chart owned by `u1`. -/
def wPriv : Chart :=
  { id := "c1", user_id := "u1", title := none, description := none
    data := "d", config := "cfg", source_type := none, source_url := none
    is_public := 0, view_count := 5, like_count := 0, created_at := 0, updated_at := 0 }

/-- A public fixture chart owned by `u1`. -/
def wPub : Chart :=
  { id := "cpub", user_id := "u1", title := none, description := none
    data := "d", config := "cfg", source_type := none, source_url := none
    is_public := 1, view_count := 0, like_count := 0, created_at := 0, updated_at := 0 }

/-- The fixture database. -/
def wDb : DBState :=
  { users := [wU1, wU2], charts := [wPriv, wPub], saved_charts := [], likes := [] }

/-! ## Claim theorems -/

/-- C2: `_safe_frontend_target` falls back to `FRONTEND_URL` for an empty or
unlisted target, returns a target matching an allowed origin unchanged,
returns a localhost-style target unchanged outside production, and in
production rejects a localhost target (one not covered by the allowed
origins), replacing it with `FRONTEND_URL`. -/
theorem c2_safe_frontend_target (cfg : Config) (t : String) :
    (safe_frontend_target cfg none = cfg.FRONTEND_URL) ∧
    (safe_frontend_target cfg (some "") = cfg.FRONTEND_URL) ∧
    (matchesAllowed cfg t = false →
      (cfg.IS_PRODUCTION = true ∨ isLocalhostTarget t = false) →
      safe_frontend_target cfg (some t) = cfg.FRONTEND_URL) ∧
    (t ≠ "" → matchesAllowed cfg t = true → safe_frontend_target cfg (some t) = t) ∧
    (t ≠ "" → cfg.IS_PRODUCTION = false → isLocalhostTarget t = true →
      safe_frontend_target cfg (some t) = t) ∧
    (cfg.IS_PRODUCTION = true → isLocalhostTarget t = true → matchesAllowed cfg t = false →
      safe_frontend_target cfg (some t) = cfg.FRONTEND_URL) := by
  refine ⟨rfl, by simp [safe_frontend_target], ?_, ?_, ?_, ?_⟩
  · intro hm hp
    by_cases ht : t = ""
    · simp [safe_frontend_target, ht]
    · rcases hp with hp | hp <;> simp [safe_frontend_target, ht, hm, hp]
  · intro ht hm
    by_cases hl : (!cfg.IS_PRODUCTION && isLocalhostTarget t) = true <;>
      simp [safe_frontend_target, ht, hm, hl]
  · intro ht hprod hloc
    simp [safe_frontend_target, ht, hprod, hloc]
  · intro hprod hloc hm
    by_cases ht : t = ""
    · simp [safe_frontend_target, ht]
    · simp [safe_frontend_target, ht, hprod, hm]

/-- C2 witness: the four behaviours at concrete configurations and targets. -/
theorem c2_witness :
    safe_frontend_target ⟨"https://app.example", [" https://chart.example "], true⟩
      (some "https://evil.example/p") = "https://app.example" ∧
    safe_frontend_target ⟨"https://app.example", [" https://chart.example "], true⟩
      (some "https://chart.example/p") = "https://chart.example/p" ∧
    safe_frontend_target ⟨"https://app.example", [], false⟩
      (some "http://localhost:5173/x") = "http://localhost:5173/x" ∧
    safe_frontend_target ⟨"https://app.example", [], true⟩
      (some "http://localhost:5173/x") = "https://app.example" :=
  ⟨(c2_safe_frontend_target _ _).2.2.1 (by decide) (Or.inl rfl),
   (c2_safe_frontend_target _ _).2.2.2.1 (by decide) (by decide),
   (c2_safe_frontend_target _ _).2.2.2.2.1 (by decide) rfl (by decide),
   (c2_safe_frontend_target _ _).2.2.2.2.2 rfl (by decide) (by decide)⟩

/-- C4: a token issued by `create_access_token` carries `exp = now + 7 days`
and `iat = now`; decoding it with the same secret before expiry returns the
payload with the original user id as subject, and after expiry returns no
payload with the `Expired` log line. -/
theorem c4_token_roundtrip (user_id secret : String) (now now' : Nat) :
    ((create_access_token user_id secret now).payload.exp = now + 7 * 24 * 60 * 60) ∧
    ((create_access_token user_id secret now).payload.iat = now) ∧
    (now' < now + 7 * 24 * 60 * 60 →
      (decode_token (create_access_token user_id secret now) secret now').1 =
        some { sub := user_id, exp := now + 7 * 24 * 60 * 60, iat := now }) ∧
    (now + 7 * 24 * 60 * 60 < now' →
      decode_token (create_access_token user_id secret now) secret now' =
        (none, AuthLog.tokenExpired)) := by
  refine ⟨rfl, rfl, ?_, ?_⟩
  · intro h
    simp [decode_token, create_access_token, JWT_EXPIRATION_SECONDS, Nat.not_le.mpr h]
  · intro h
    simp [decode_token, create_access_token, JWT_EXPIRATION_SECONDS, Nat.le_of_lt h]

/-- C4 witness: issue at time 100 for user `u1`, decode at times 200 and
800000. -/
theorem c4_witness :
    (decode_token (create_access_token "u1" "sec" 100) "sec" 200).1 =
      some { sub := "u1", exp := 100 + 7 * 24 * 60 * 60, iat := 100 } ∧
    decode_token (create_access_token "u1" "sec" 100) "sec" 800000 =
      (none, AuthLog.tokenExpired) :=
  ⟨(c4_token_roundtrip "u1" "sec" 100 200).2.2.1 (by decide),
   (c4_token_roundtrip "u1" "sec" 100 800000).2.2.2 (by decide)⟩

/-- C9: `decode_token` takes the `ExpiredSignatureError` branch (logging
`tokenExpired`) for an intact, correctly signed token whose expiry has
passed, and the `InvalidTokenError` branch (logging `tokenInvalid`) for a
token signed with a different secret or structurally corrupted; the two
branches are distinct. -/
theorem c9_decode_failure_modes (token : Jwt) (secret : String) (now : Nat) :
    (token.wellFormed = true → token.secret = secret → token.payload.exp ≤ now →
      decode_token token secret now = (none, AuthLog.tokenExpired)) ∧
    (token.secret ≠ secret → decode_token token secret now = (none, AuthLog.tokenInvalid)) ∧
    (token.wellFormed = false → decode_token token secret now = (none, AuthLog.tokenInvalid)) ∧
    AuthLog.tokenExpired ≠ AuthLog.tokenInvalid := by
  refine ⟨?_, ?_, ?_, by simp⟩
  · intro hw hs he
    simp [decode_token, hw, hs, he]
  · intro hs
    simp [decode_token, bne_iff_ne.mpr hs]
  · intro hw
    simp [decode_token, hw]

/-- C9 witness: an expired token, a token with the wrong secret, and a
corrupted token, at concrete values. -/
theorem c9_witness :
    decode_token ⟨⟨"u1", 50, 0⟩, "sec", true⟩ "sec" 60 = (none, AuthLog.tokenExpired) ∧
    decode_token ⟨⟨"u1", 999, 0⟩, "other", true⟩ "sec" 60 = (none, AuthLog.tokenInvalid) ∧
    decode_token ⟨⟨"u1", 999, 0⟩, "sec", false⟩ "sec" 60 = (none, AuthLog.tokenInvalid) :=
  ⟨(c9_decode_failure_modes ⟨⟨"u1", 50, 0⟩, "sec", true⟩ "sec" 60).1 rfl rfl (by decide),
   (c9_decode_failure_modes ⟨⟨"u1", 999, 0⟩, "other", true⟩ "sec" 60).2.1 (by decide),
   (c9_decode_failure_modes ⟨⟨"u1", 999, 0⟩, "sec", false⟩ "sec" 60).2.2.1 rfl⟩

/-- C3: when the `auth_token` cookie is present (truthy), `get_current_user`
and `get_optional_user` resolve identically whatever the bearer header
carries, and a successful resolution returns the user bound by the cookie's
token. -/
theorem c3_cookie_precedence (auth_token credentials : Option TokenStr)
    (db : DBState) (secret : String) (now : Nat) :
    (TokenStr.truthy auth_token = true →
      get_current_user auth_token credentials db secret now =
        get_current_user auth_token none db secret now ∧
      get_optional_user auth_token credentials db secret now =
        get_optional_user auth_token none db secret now) ∧
    (∀ tok : Jwt, auth_token = some (.jwt tok) →
      ∀ u : User, get_current_user auth_token credentials db secret now = .ok u →
        ∃ payload, (decode_token tok secret now).1 = some payload ∧
          u.id = payload.sub) := by
  constructor
  · intro ht
    have hpick : pick_token auth_token credentials = auth_token := by
      simp [pick_token, ht]
    have hpick' : pick_token auth_token none = auth_token := by
      simp [pick_token, ht]
    have hmain : get_current_user auth_token credentials db secret now =
        get_current_user auth_token none db secret now := by
      simp only [get_current_user, hpick, hpick']
    exact ⟨hmain, by simp only [get_optional_user, hmain]⟩
  · intro tok htok u hu
    subst htok
    have hpick : pick_token (some (.jwt tok)) credentials = some (.jwt tok) := by
      simp [pick_token, TokenStr.truthy]
    simp only [get_current_user, hpick] at hu
    split at hu
    · exact absurd hu (by simp)
    rename_i payload hdec
    refine ⟨payload, hdec, ?_⟩
    split at hu
    · exact absurd hu (by simp)
    split at hu
    · exact absurd hu (by simp)
    rename_i hfind
    have hp := List.find?_some hfind
    injection hu with h
    subst h
    exact eq_of_beq hp

/-- C3 witness: with a cookie bound to `u1` and a header bound to `u2`, both
resolvers return `u1`, identically to the header-free request. -/
theorem c3_witness :
    get_current_user (some (.jwt (create_access_token "u1" "sec" 0)))
        (some (.jwt (create_access_token "u2" "sec" 0))) wDb "sec" 5 =
      get_current_user (some (.jwt (create_access_token "u1" "sec" 0))) none wDb "sec" 5 ∧
    get_optional_user (some (.jwt (create_access_token "u1" "sec" 0)))
        (some (.jwt (create_access_token "u2" "sec" 0))) wDb "sec" 5 =
      get_optional_user (some (.jwt (create_access_token "u1" "sec" 0))) none wDb "sec" 5 :=
  (c3_cookie_precedence (some (.jwt (create_access_token "u1" "sec" 0)))
    (some (.jwt (create_access_token "u2" "sec" 0))) wDb "sec" 5).1 rfl

/-- C1: `GET /api/charts/{id}` returns 404 for a missing id (for every
caller, so existence is decided before visibility), 403 for a private chart
requested anonymously or by a non-owner, and succeeds on a public chart for
every caller. -/
theorem c1_get_chart_access (db : DBState) (chart_id : String)
    (current_user : Option User) :
    (db.charts.find? (chartById chart_id) = none →
      get_chart chart_id current_user db = .error ⟨404, "Chart not found"⟩) ∧
    (∀ c, db.charts.find? (chartById chart_id) = some c → c.is_public = 0 →
      get_chart chart_id none db = .error ⟨403, "Access denied"⟩ ∧
      (∀ u, current_user = some u → c.user_id ≠ u.id →
        get_chart chart_id current_user db = .error ⟨403, "Access denied"⟩)) ∧
    (∀ c, db.charts.find? (chartById chart_id) = some c → c.is_public ≠ 0 →
      ∃ r, get_chart chart_id current_user db = .ok r) := by
  refine ⟨?_, ?_, ?_⟩
  · intro h
    simp [get_chart, h]
  · intro c hc hpriv
    constructor
    · simp [get_chart, hc, hpriv]
    · intro u hu hne
      subst hu
      simp [get_chart, hc, hpriv, bne_iff_ne.mpr hne]
  · intro c hc hpub
    simp only [get_chart, hc]
    rw [if_neg (by simp [hpub])]
    exact ⟨_, rfl⟩

/-- C1 witness: on the fixture database, a missing id is 404 for an anonymous
caller, the private chart is 403 both anonymously and for a non-owner, and
the public chart is readable anonymously. -/
theorem c1_witness :
    get_chart "missing" none wDb = .error ⟨404, "Chart not found"⟩ ∧
    get_chart "c1" none wDb = .error ⟨403, "Access denied"⟩ ∧
    get_chart "c1" (some wU2) wDb = .error ⟨403, "Access denied"⟩ ∧
    ∃ r, get_chart "cpub" none wDb = .ok r :=
  ⟨(c1_get_chart_access wDb "missing" none).1 rfl,
   ((c1_get_chart_access wDb "c1" none).2.1 wPriv rfl rfl).1,
   ((c1_get_chart_access wDb "c1" (some wU2)).2.1 wPriv rfl rfl).2 wU2 rfl (by decide),
   (c1_get_chart_access wDb "cpub" none).2.2 wPub rfl (by decide)⟩

/-- C10: `like_chart` and `save_chart` check only chart existence and
duplicate join rows — no visibility or ownership check — so an authenticated
user can like or save any existing chart, private or not, owned or not. -/
theorem c10_like_save_ignore_visibility (db : DBState) (chart_id : String)
    (u : User) (newId : String) (now : Nat) (c : Chart)
    (hc : db.charts.find? (chartById chart_id) = some c) :
    (db.likes.find? (likeByUserChart u.id chart_id) = none →
      ∃ r, like_chart chart_id u newId now db = .ok r) ∧
    (db.saved_charts.find? (savedByUserChart u.id chart_id) = none →
      ∃ r, save_chart chart_id u newId now db = .ok r) := by
  constructor
  · intro hl
    simp only [like_chart, hc, hl]
    exact ⟨_, rfl⟩
  · intro hs
    simp only [save_chart, hc, hs]
    exact ⟨_, rfl⟩

/-- C10 witness: `u2` likes and saves the private chart `c1` owned by `u1`. -/
theorem c10_witness :
    (∃ r, like_chart "c1" wU2 "l1" 10 wDb = .ok r) ∧
    (∃ r, save_chart "c1" wU2 "s1" 10 wDb = .ok r) :=
  ⟨(c10_like_save_ignore_visibility wDb "c1" wU2 "l1" 10 wPriv rfl).1 rfl,
   (c10_like_save_ignore_visibility wDb "c1" wU2 "s1" 10 wPriv rfl).2 rfl⟩

/-- C5: on an existing chart, the first save (like) by a user succeeds and
appends the join row; repeating it fails with the 400 `Conflict` error
rather than succeeding silently; and after unsaving, saving succeeds
again. -/
theorem c5_duplicate_save_like_conflict (db : DBState) (chart_id : String)
    (u : User) (newId newId2 : String) (now now2 : Nat) (c : Chart)
    (hc : db.charts.find? (chartById chart_id) = some c)
    (hs : db.saved_charts.find? (savedByUserChart u.id chart_id) = none)
    (hl : db.likes.find? (likeByUserChart u.id chart_id) = none) :
    (∃ row db1, save_chart chart_id u newId now db = .ok (row, db1) ∧
      row.user_id = u.id ∧ row.chart_id = chart_id ∧
      db1.saved_charts = db.saved_charts ++ [row] ∧
      save_chart chart_id u newId2 now2 db1 = .error ⟨400, "Chart already saved"⟩ ∧
      ∃ db2, unsave_chart chart_id u db1 = .ok db2 ∧
        ∃ r2, save_chart chart_id u newId2 now2 db2 = .ok r2) ∧
    (∃ lrow db1, like_chart chart_id u newId now db = .ok (lrow, db1) ∧
      lrow.user_id = u.id ∧ lrow.chart_id = chart_id ∧
      db1.likes = db.likes ++ [lrow] ∧
      like_chart chart_id u newId2 now2 db1 = .error ⟨400, "Chart already liked"⟩) := by
  constructor
  · have hqrow : savedByUserChart u.id chart_id ⟨newId, u.id, chart_id, now⟩ = true := by
      simp [savedByUserChart]
    have hall : ∀ x ∈ db.saved_charts, savedByUserChart u.id chart_id x = false := by
      intro x hx
      simpa using List.find?_eq_none.mp hs x hx
    have hfind1 : (db.saved_charts ++ [(⟨newId, u.id, chart_id, now⟩ : SavedChart)]).find?
        (savedByUserChart u.id chart_id) = some ⟨newId, u.id, chart_id, now⟩ := by
      rw [find?_append_of_none _ hs]
      exact List.find?_cons_of_pos _ hqrow
    have heras : eraseFirst (savedByUserChart u.id chart_id)
        (db.saved_charts ++ [(⟨newId, u.id, chart_id, now⟩ : SavedChart)]) =
          db.saved_charts := by
      simpa using (@eraseFirst_append_cons _ _ _ [] _ hall hqrow)
    refine ⟨⟨newId, u.id, chart_id, now⟩,
      { db with saved_charts := db.saved_charts ++ [⟨newId, u.id, chart_id, now⟩] },
      by simp [save_chart, hc, hs], rfl, rfl, rfl,
      by simp [save_chart, hc, hfind1], db, ?_, ?_⟩
    · simp [unsave_chart, hfind1, heras]
    · simp only [save_chart, hc, hs]
      exact ⟨_, rfl⟩
  · obtain ⟨l1, l2c, hceq, hcall, hcp⟩ := find?_decomp hc
    have hqrow : likeByUserChart u.id chart_id ⟨newId, u.id, chart_id, now⟩ = true := by
      simp [likeByUserChart]
    have hup : updateFirst (chartById chart_id)
        (fun x => { x with like_count := x.like_count + 1 }) db.charts =
          l1 ++ ({ c with like_count := c.like_count + 1 }) :: l2c := by
      rw [hceq]; exact updateFirst_append_cons hcall hcp
    have hfindc1 : (updateFirst (chartById chart_id)
        (fun x => { x with like_count := x.like_count + 1 }) db.charts).find?
          (chartById chart_id) = some ({ c with like_count := c.like_count + 1 }) := by
      rw [hup]
      exact find?_append_cons hcall (by simpa [chartById] using hcp)
    have hfindL : (db.likes ++ [(⟨newId, u.id, chart_id, now⟩ : Like)]).find?
        (likeByUserChart u.id chart_id) = some ⟨newId, u.id, chart_id, now⟩ := by
      rw [find?_append_of_none _ hl]
      exact List.find?_cons_of_pos _ hqrow
    refine ⟨⟨newId, u.id, chart_id, now⟩,
      { db with
        likes := db.likes ++ [⟨newId, u.id, chart_id, now⟩]
        charts := updateFirst (chartById chart_id)
          (fun x => { x with like_count := x.like_count + 1 }) db.charts },
      by simp [like_chart, hc, hl], rfl, rfl, rfl, ?_⟩
    simp [like_chart, hfindc1, hfindL]

/-- C5 witness: `u2` saves and likes `c1` once (success), twice (conflict),
and can save again after unsaving. -/
theorem c5_witness :
    (∃ row db1, save_chart "c1" wU2 "s1" 10 wDb = .ok (row, db1) ∧
      row.user_id = wU2.id ∧ row.chart_id = "c1" ∧
      db1.saved_charts = wDb.saved_charts ++ [row] ∧
      save_chart "c1" wU2 "s2" 11 db1 = .error ⟨400, "Chart already saved"⟩ ∧
      ∃ db2, unsave_chart "c1" wU2 db1 = .ok db2 ∧
        ∃ r2, save_chart "c1" wU2 "s2" 11 db2 = .ok r2) ∧
    (∃ lrow db1, like_chart "c1" wU2 "s1" 10 wDb = .ok (lrow, db1) ∧
      lrow.user_id = wU2.id ∧ lrow.chart_id = "c1" ∧
      db1.likes = wDb.likes ++ [lrow] ∧
      like_chart "c1" wU2 "s2" 11 db1 = .error ⟨400, "Chart already liked"⟩) :=
  c5_duplicate_save_like_conflict wDb "c1" wU2 "s1" "s2" 10 11 wPriv rfl rfl rfl

/-- C6: unliking with no Like row is a 404 that changes nothing; with a Like
row present, one call deletes the row and floors-decrements the chart's
`like_count` in the same step; and like followed by unlike restores the
entire pre-like state, in particular the chart's `like_count`. -/
theorem c6_unlike_semantics (db : DBState) (chart_id : String) (u : User)
    (newId : String) (now : Nat) :
    (db.likes.find? (likeByUserChart u.id chart_id) = none →
      unlike_chart chart_id u db = .error ⟨404, "Like not found"⟩) ∧
    (∀ lk c, db.likes.find? (likeByUserChart u.id chart_id) = some lk →
      db.charts.find? (chartById chart_id) = some c → 0 ≤ c.like_count →
      ∃ db', unlike_chart chart_id u db = .ok db' ∧
        (∃ m1 m2, db.likes = m1 ++ lk :: m2 ∧ db'.likes = m1 ++ m2) ∧
        (∃ l1 l2, db.charts = l1 ++ c :: l2 ∧
          db'.charts = l1 ++ { c with like_count := max 0 (c.like_count - 1) } :: l2) ∧
        db'.saved_charts = db.saved_charts ∧ db'.users = db.users) ∧
    (∀ c, db.charts.find? (chartById chart_id) = some c → 0 ≤ c.like_count →
      db.likes.find? (likeByUserChart u.id chart_id) = none →
      ∃ lrow db1, like_chart chart_id u newId now db = .ok (lrow, db1) ∧
        unlike_chart chart_id u db1 = .ok db) := by
  refine ⟨?_, ?_, ?_⟩
  · intro h
    simp [unlike_chart, h]
  · intro lk c hlk hc hnn
    obtain ⟨m1, m2, hleq, hlall, hlq⟩ := find?_decomp hlk
    obtain ⟨l1, l2c, hceq, hcall, hcp⟩ := find?_decomp hc
    have hdec : (if 0 < c.like_count then { c with like_count := c.like_count - 1 }
        else c) = { c with like_count := max 0 (c.like_count - 1) } := by
      by_cases h0 : 0 < c.like_count
      · rw [if_pos h0]
        have hm : max 0 (c.like_count - 1) = c.like_count - 1 := by omega
        rw [hm]
      · rw [if_neg h0]
        have hm : max 0 (c.like_count - 1) = c.like_count := by omega
        rw [hm]
    refine ⟨{ db with
        charts := updateFirst (chartById chart_id)
          (fun x => if 0 < x.like_count then { x with like_count := x.like_count - 1 } else x)
          db.charts
        likes := eraseFirst (likeByUserChart u.id chart_id) db.likes },
      by simp [unlike_chart, hlk],
      ⟨m1, m2, hleq, ?_⟩, ⟨l1, l2c, hceq, ?_⟩, rfl, rfl⟩
    · show eraseFirst (likeByUserChart u.id chart_id) db.likes = m1 ++ m2
      rw [hleq]
      exact eraseFirst_append_cons hlall hlq
    · show updateFirst (chartById chart_id)
        (fun x => if 0 < x.like_count then { x with like_count := x.like_count - 1 } else x)
        db.charts = _
      rw [hceq, updateFirst_append_cons hcall hcp, hdec]
  · intro c hc hnn hl
    obtain ⟨l1, l2c, hceq, hcall, hcp⟩ := find?_decomp hc
    have hlall : ∀ x ∈ db.likes, likeByUserChart u.id chart_id x = false := by
      intro x hx
      simpa using List.find?_eq_none.mp hl x hx
    have hqrow : likeByUserChart u.id chart_id ⟨newId, u.id, chart_id, now⟩ = true := by
      simp [likeByUserChart]
    have hfindL : (db.likes ++ [(⟨newId, u.id, chart_id, now⟩ : Like)]).find?
        (likeByUserChart u.id chart_id) = some ⟨newId, u.id, chart_id, now⟩ := by
      rw [find?_append_of_none _ hl]
      exact List.find?_cons_of_pos _ hqrow
    have heras : eraseFirst (likeByUserChart u.id chart_id)
        (db.likes ++ [(⟨newId, u.id, chart_id, now⟩ : Like)]) = db.likes := by
      simpa using (@eraseFirst_append_cons _ _ _ [] _ hlall hqrow)
    have hupd : updateFirst (chartById chart_id)
        (fun x => if 0 < x.like_count then { x with like_count := x.like_count - 1 } else x)
        (updateFirst (chartById chart_id)
          (fun x => { x with like_count := x.like_count + 1 }) db.charts) = db.charts := by
      rw [hceq, updateFirst_append_cons hcall hcp,
        updateFirst_append_cons hcall (by simpa [chartById] using hcp)]
      have h0 : 0 < c.like_count + 1 := by omega
      rw [if_pos h0, show (c.like_count + 1 - 1 : Int) = c.like_count by omega]
    refine ⟨⟨newId, u.id, chart_id, now⟩,
      { db with
        likes := db.likes ++ [⟨newId, u.id, chart_id, now⟩]
        charts := updateFirst (chartById chart_id)
          (fun x => { x with like_count := x.like_count + 1 }) db.charts },
      by simp [like_chart, hc, hl], ?_⟩
    simp [unlike_chart, hfindL, heras, hupd]

/-- C6 witness: on the fixture database, `u2` unliking `c1` with no Like row
is a 404, and after liking `c1` an unlike returns the exact original
state. -/
theorem c6_witness :
    unlike_chart "c1" wU2 wDb = .error ⟨404, "Like not found"⟩ ∧
    ∃ lrow db1, like_chart "c1" wU2 "l1" 10 wDb = .ok (lrow, db1) ∧
      unlike_chart "c1" wU2 db1 = .ok wDb :=
  ⟨(c6_unlike_semantics wDb "c1" wU2 "l1" 10).1 rfl,
   (c6_unlike_semantics wDb "c1" wU2 "l1" 10).2.2 wPriv rfl (by decide) rfl⟩

/-- The private fixture chart after one read (`view_count` 5 → 6). -/
def wPrivRead : Chart := { wPriv with view_count := 6 }

/-- The fixture database after one read of `c1`. -/
def wDbRead : DBState := { wDb with charts := [wPrivRead, wPub] }

/-- C8: every successful `GET /api/charts/{id}` commits exactly one change:
the requested chart's `view_count` grows by 1, every other field of that
chart and every other row of every table is unchanged; and the read
succeeds for the chart's owner, so the increment applies to owner reads
too. -/
theorem c8_view_count_frame (db : DBState) (chart_id : String)
    (current_user : Option User) :
    (∀ ch db', get_chart chart_id current_user db = .ok (ch, db') →
      ∃ c l1 l2, db.charts.find? (chartById chart_id) = some c ∧
        db.charts = l1 ++ c :: l2 ∧ db'.charts = l1 ++ ch :: l2 ∧
        ch.view_count = c.view_count + 1 ∧
        ch.id = c.id ∧ ch.user_id = c.user_id ∧ ch.title = c.title ∧
        ch.description = c.description ∧ ch.data = c.data ∧ ch.config = c.config ∧
        ch.source_type = c.source_type ∧ ch.source_url = c.source_url ∧
        ch.is_public = c.is_public ∧ ch.like_count = c.like_count ∧
        ch.created_at = c.created_at ∧ ch.updated_at = c.updated_at ∧
        db'.users = db.users ∧ db'.saved_charts = db.saved_charts ∧
        db'.likes = db.likes) ∧
    (∀ c u, db.charts.find? (chartById chart_id) = some c → current_user = some u →
      c.user_id = u.id → ∃ r, get_chart chart_id current_user db = .ok r) := by
  constructor
  · intro ch db' h
    cases hfc : db.charts.find? (chartById chart_id) with
    | none => simp [get_chart, hfc] at h
    | some c =>
      simp only [get_chart, hfc] at h
      split at h
      · exact absurd h (by simp)
      · simp only [Except.ok.injEq, Prod.mk.injEq] at h
        obtain ⟨hch, hdb⟩ := h
        obtain ⟨l1, l2, hceq, hcall, hcp⟩ := find?_decomp hfc
        subst hch hdb
        refine ⟨c, l1, l2, rfl, hceq, ?_, rfl, rfl, rfl, rfl, rfl, rfl, rfl, rfl, rfl,
          rfl, rfl, rfl, rfl, rfl, rfl, rfl⟩
        show updateFirst (chartById chart_id)
          (fun x => { x with view_count := x.view_count + 1 }) db.charts = _
        rw [hceq, updateFirst_append_cons hcall hcp]
  · intro c u hc hu hown
    subst hu
    simp only [get_chart, hc]
    rw [if_neg (by simp [hown])]
    exact ⟨_, rfl⟩

/-- C8 witness: the owner reads the private chart `c1`; the committed state
changes only that chart's `view_count`, from 5 to 6. -/
theorem c8_witness :
    (∃ c l1 l2, wDb.charts.find? (chartById "c1") = some c ∧
      wDb.charts = l1 ++ c :: l2 ∧ wDbRead.charts = l1 ++ wPrivRead :: l2 ∧
      wPrivRead.view_count = c.view_count + 1 ∧
      wPrivRead.id = c.id ∧ wPrivRead.user_id = c.user_id ∧
      wPrivRead.title = c.title ∧ wPrivRead.description = c.description ∧
      wPrivRead.data = c.data ∧ wPrivRead.config = c.config ∧
      wPrivRead.source_type = c.source_type ∧ wPrivRead.source_url = c.source_url ∧
      wPrivRead.is_public = c.is_public ∧ wPrivRead.like_count = c.like_count ∧
      wPrivRead.created_at = c.created_at ∧ wPrivRead.updated_at = c.updated_at ∧
      wDbRead.users = wDb.users ∧ wDbRead.saved_charts = wDb.saved_charts ∧
      wDbRead.likes = wDb.likes) ∧
    (∃ r, get_chart "c1" (some wU1) wDb = .ok r) :=
  ⟨(c8_view_count_frame wDb "c1" (some wU1)).1 wPrivRead wDbRead rfl,
   (c8_view_count_frame wDb "c1" (some wU1)).2 wPriv wU1 rfl rfl rfl⟩

/-! ## The like-count invariant (claim C7) -/

/-- Data-model invariant: each chart's `like_count` equals the number of Like
rows referencing it. -/
def likeCountInv (db : DBState) : Prop :=
  ∀ c ∈ db.charts, c.like_count =
    ((db.likes.filter (fun l => l.chart_id == c.id)).length : Int)

/-- Primary-key well-formedness of the `charts` table: ids are distinct. -/
def chartIdsNodup (db : DBState) : Prop :=
  (db.charts.map Chart.id).Nodup

/-- A like or unlike request, with the generated row id and timestamp for
the like case. -/
inductive SocialOp where
  | like (u : User) (chart_id newId : String) (now : Nat)
  | unlike (u : User) (chart_id : String)

/-- Run one like/unlike request against the store; a raised `HTTPException`
commits nothing. -/
def applySocialOp (db : DBState) : SocialOp → DBState
  | .like u cid newId now =>
    match like_chart cid u newId now db with
    | .ok r => r.2
    | .error _ => db
  | .unlike u cid =>
    match unlike_chart cid u db with
    | .ok db' => db'
    | .error _ => db

theorem nodup_middle_ne {l1 l2 : List Chart} {c : Chart}
    (hn : ((l1 ++ c :: l2).map Chart.id).Nodup) :
    ∀ x ∈ l2, x.id ≠ c.id := by
  intro x hx
  rw [List.map_append, List.map_cons] at hn
  have h2 : (c.id :: l2.map Chart.id).Nodup :=
    hn.sublist (List.sublist_append_right _ _)
  have hni := (List.nodup_cons.mp h2).1
  intro he
  exact hni (he ▸ List.mem_map_of_mem Chart.id hx)

/-- One like/unlike request preserves primary-key well-formedness and the
like-count invariant. -/
theorem applySocialOp_preserves (db : DBState) (op : SocialOp)
    (hn : chartIdsNodup db) (hinv : likeCountInv db) :
    chartIdsNodup (applySocialOp db op) ∧ likeCountInv (applySocialOp db op) := by
  cases op with
  | like u cid newId now =>
    cases hfc : db.charts.find? (chartById cid) with
    | none =>
      simp only [applySocialOp, like_chart, hfc]
      exact ⟨hn, hinv⟩
    | some c =>
      cases hfl : db.likes.find? (likeByUserChart u.id cid) with
      | some lk =>
        simp only [applySocialOp, like_chart, hfc, hfl]
        exact ⟨hn, hinv⟩
      | none =>
        simp only [applySocialOp, like_chart, hfc, hfl]
        obtain ⟨l1, l2, hceq, hcall, hcp⟩ := find?_decomp hfc
        have hcid : c.id = cid := by simpa [chartById] using hcp
        constructor
        · show ((updateFirst (chartById cid)
            (fun x => { x with like_count := x.like_count + 1 }) db.charts).map Chart.id).Nodup
          have hf : ∀ a : Chart,
              ({ a with like_count := a.like_count + 1 } : Chart).id = a.id := fun a => rfl
          rwa [map_updateFirst db.charts hf]
        · simp only [likeCountInv]
          intro x hx
          have hx' : x ∈ l1 ++ ({ c with like_count := c.like_count + 1 } : Chart) :: l2 := by
            have hxx : x ∈ updateFirst (chartById cid)
                (fun y => { y with like_count := y.like_count + 1 }) db.charts := hx
            rwa [hceq, updateFirst_append_cons hcall hcp] at hxx
          show x.like_count = ((List.filter (fun l => l.chart_id == x.id)
            (db.likes ++
              [{ id := newId, user_id := u.id, chart_id := cid, created_at := now }])).length : Int)
          rcases List.mem_append.mp hx' with h1 | h2
          · have hxne : x.id ≠ cid := by simpa [chartById] using hcall x h1
            have hrow :
                (({ id := newId, user_id := u.id, chart_id := cid, created_at := now } : Like).chart_id
                  == x.id) = false :=
              beq_eq_false_iff_ne.mpr (Ne.symm hxne)
            rw [List.filter_append]
            simp only [List.filter_cons, hrow, Bool.false_eq_true, if_false, List.filter_nil,
              List.append_nil]
            exact hinv x (by rw [hceq]; exact List.mem_append_left _ h1)
          · rcases List.mem_cons.mp h2 with hxc | h2'
            · subst hxc
              show c.like_count + 1 = ((List.filter (fun l => l.chart_id == c.id)
                (db.likes ++
                  [{ id := newId, user_id := u.id, chart_id := cid,
                     created_at := now }])).length : Int)
              have hrow :
                  (({ id := newId, user_id := u.id, chart_id := cid, created_at := now } : Like).chart_id
                    == c.id) = true :=
                beq_iff_eq.mpr hcid.symm
              rw [List.filter_append]
              simp only [List.filter_cons, hrow, if_true, List.filter_nil, List.length_append,
                List.length_cons, List.length_nil]
              have hc0 := hinv c (by
                rw [hceq]; exact List.mem_append_right _ (List.mem_cons_self _ _))
              push_cast
              omega
            · have hni : ((l1 ++ c :: l2).map Chart.id).Nodup := by
                have hnd : (db.charts.map Chart.id).Nodup := hn
                rwa [hceq] at hnd
              have hxne : x.id ≠ cid := by
                have := nodup_middle_ne hni x h2'
                rwa [hcid] at this
              have hrow :
                  (({ id := newId, user_id := u.id, chart_id := cid, created_at := now } : Like).chart_id
                    == x.id) = false :=
                beq_eq_false_iff_ne.mpr (Ne.symm hxne)
              rw [List.filter_append]
              simp only [List.filter_cons, hrow, Bool.false_eq_true, if_false, List.filter_nil,
                List.append_nil]
              exact hinv x (by
                rw [hceq]; exact List.mem_append_right _ (List.mem_cons_of_mem _ h2'))
  | unlike u cid =>
    cases hfl : db.likes.find? (likeByUserChart u.id cid) with
    | none =>
      simp only [applySocialOp, unlike_chart, hfl]
      exact ⟨hn, hinv⟩
    | some lk =>
      simp only [applySocialOp, unlike_chart, hfl]
      obtain ⟨m1, m2, hleq, hlall, hlq⟩ := find?_decomp hfl
      have hlkcid : lk.chart_id = cid := by
        have := hlq
        simp [likeByUserChart] at this
        exact this.2
      have heras : eraseFirst (likeByUserChart u.id cid) db.likes = m1 ++ m2 := by
        rw [hleq]; exact eraseFirst_append_cons hlall hlq
      constructor
      · show ((updateFirst (chartById cid)
          (fun x => if 0 < x.like_count then { x with like_count := x.like_count - 1 } else x)
          db.charts).map Chart.id).Nodup
        rw [map_updateFirst]
        · exact hn
        · intro a
          by_cases h0 : 0 < a.like_count <;> simp [h0]
      · simp only [likeCountInv]
        intro x hx
        have hx' : x ∈ updateFirst (chartById cid)
            (fun y => if 0 < y.like_count then { y with like_count := y.like_count - 1 } else y)
            db.charts := hx
        show x.like_count = ((List.filter (fun l => l.chart_id == x.id)
          (eraseFirst (likeByUserChart u.id cid) db.likes)).length : Int)
        rw [heras]
        cases hfc : db.charts.find? (chartById cid) with
        | none =>
          have hallc : ∀ y ∈ db.charts, chartById cid y = false := by
            intro y hy; simpa using List.find?_eq_none.mp hfc y hy
          rw [updateFirst_of_none hallc] at hx'
          have hxne : x.id ≠ cid := by simpa [chartById] using hallc x hx'
          have hlkx : (lk.chart_id == x.id) = false :=
            beq_eq_false_iff_ne.mpr (by rw [hlkcid]; exact Ne.symm hxne)
          have hfe : List.filter (fun l => l.chart_id == x.id) (m1 ++ m2) =
              List.filter (fun l => l.chart_id == x.id) db.likes := by
            rw [hleq]
            simp [List.filter_append, List.filter_cons, hlkx]
          rw [hfe]
          exact hinv x hx'
        | some c =>
          obtain ⟨l1, l2, hceq, hcall, hcp⟩ := find?_decomp hfc
          have hcid : c.id = cid := by simpa [chartById] using hcp
          rw [hceq, updateFirst_append_cons hcall hcp] at hx'
          have hni : ((l1 ++ c :: l2).map Chart.id).Nodup := by
            have hnd : (db.charts.map Chart.id).Nodup := hn
            rwa [hceq] at hnd
          rcases List.mem_append.mp hx' with h1 | h2
          · have hxne : x.id ≠ cid := by simpa [chartById] using hcall x h1
            have hlkx : (lk.chart_id == x.id) = false :=
              beq_eq_false_iff_ne.mpr (by rw [hlkcid]; exact Ne.symm hxne)
            have hfe : List.filter (fun l => l.chart_id == x.id) (m1 ++ m2) =
                List.filter (fun l => l.chart_id == x.id) db.likes := by
              rw [hleq]
              simp [List.filter_append, List.filter_cons, hlkx]
            rw [hfe]
            exact hinv x (by rw [hceq]; exact List.mem_append_left _ h1)
          · rcases List.mem_cons.mp h2 with hxc | h2'
            · have hcmem : c ∈ db.charts := by
                rw [hceq]; exact List.mem_append_right _ (List.mem_cons_self _ _)
              have hc0 := hinv c hcmem
              have hlkc : (lk.chart_id == c.id) = true :=
                beq_iff_eq.mpr (by rw [hlkcid, hcid])
              have hfsplit : List.filter (fun l => l.chart_id == c.id) db.likes =
                  List.filter (fun l => l.chart_id == c.id) m1 ++
                    lk :: List.filter (fun l => l.chart_id == c.id) m2 := by
                rw [hleq]
                simp [List.filter_append, List.filter_cons, hlkc]
              have hpos : 0 < c.like_count := by
                rw [hc0, hfsplit]
                simp only [List.length_append, List.length_cons]
                push_cast
                omega
              have hxc' : x = if 0 < c.like_count then
                  ({ c with like_count := c.like_count - 1 } : Chart) else c := hxc
              rw [if_pos hpos] at hxc'
              subst hxc'
              show c.like_count - 1 = ((List.filter (fun l => l.chart_id == c.id)
                (m1 ++ m2)).length : Int)
              rw [hc0, hfsplit]
              simp only [List.filter_append, List.length_append, List.length_cons]
              push_cast
              omega
            · have hxne : x.id ≠ cid := by
                have := nodup_middle_ne hni x h2'
                rwa [hcid] at this
              have hlkx : (lk.chart_id == x.id) = false :=
                beq_eq_false_iff_ne.mpr (by rw [hlkcid]; exact Ne.symm hxne)
              have hfe : List.filter (fun l => l.chart_id == x.id) (m1 ++ m2) =
                  List.filter (fun l => l.chart_id == x.id) db.likes := by
                rw [hleq]
                simp [List.filter_append, List.filter_cons, hlkx]
              rw [hfe]
              exact hinv x (by
                rw [hceq]; exact List.mem_append_right _ (List.mem_cons_of_mem _ h2'))

/-- C7: from any state satisfying it (with distinct chart ids), every
sequence of like/unlike requests preserves the invariant that each chart's
`like_count` equals the number of Like rows referencing it, and the counter
is never negative. -/
theorem c7_like_count_invariant (db : DBState) (ops : List SocialOp)
    (hn : chartIdsNodup db) (hinv : likeCountInv db) :
    likeCountInv (ops.foldl applySocialOp db) ∧
    ∀ c ∈ (ops.foldl applySocialOp db).charts, 0 ≤ c.like_count := by
  have key : ∀ (rest : List SocialOp) (st : DBState), chartIdsNodup st → likeCountInv st →
      chartIdsNodup (rest.foldl applySocialOp st) ∧
        likeCountInv (rest.foldl applySocialOp st) := by
    intro rest
    induction rest with
    | nil => intro st h1 h2; exact ⟨h1, h2⟩
    | cons op tail ih =>
      intro st h1 h2
      have h := applySocialOp_preserves st op h1 h2
      simpa [List.foldl_cons] using ih _ h.1 h.2
  have h := key ops db hn hinv
  refine ⟨h.2, ?_⟩
  intro c hc
  rw [h.2 c hc]
  exact Int.natCast_nonneg _

/-- C7 witness: the invariant holds on the fixture database and is preserved
across a like, an unlike, and a like of another chart. -/
theorem c7_witness :
    likeCountInv ([SocialOp.like wU2 "c1" "l1" 10, SocialOp.unlike wU2 "c1",
      SocialOp.like wU1 "cpub" "l2" 11].foldl applySocialOp wDb) ∧
    ∀ c ∈ ([SocialOp.like wU2 "c1" "l1" 10, SocialOp.unlike wU2 "c1",
      SocialOp.like wU1 "cpub" "l2" 11].foldl applySocialOp wDb).charts,
      0 ≤ c.like_count :=
  c7_like_count_invariant wDb
    [SocialOp.like wU2 "c1" "l1" 10, SocialOp.unlike wU2 "c1",
      SocialOp.like wU1 "cpub" "l2" 11]
    (by unfold chartIdsNodup; decide) (by unfold likeCountInv; decide)

end EpicCharts
